import Mathlib

/-!
Shallow embedding of the Russian News Summarizer API (`src/api/main.py`).

The FastAPI application is modelled as pure functions over an explicit
server state.  The black-box Hugging Face pipeline is an abstract function
`Pipeline : String → GenArgs → Except String String` (it receives the input
text and the generation keyword arguments, and either returns the summary
text or raises, modelled as `Except.error` carrying the exception message).

* The global `summarizer` variable is an `Option Pipeline` (`none` = the
  Python `None`).
* `startup_event` maps the result of the model load to the new value of the
  global: `some p` on success, `none` on exception (the code leaves
  `summarizer` as `None` in the `except` branch).
* Pydantic validation of `SummarizeRequest` is the function
  `validate_request` (text length in [50, 5000], `max_length` in [30, 300]
  with default 100); FastAPI runs it before the handler, which
  `handle_summarize` reflects.
* `summarize` is the handler body: 503 when the model is not loaded, the
  pipeline call with `max_length = min 100 (m // 3)`, `min_length = 20`,
  `do_sample = False`, metrics computation, and the catch-all mapping an
  inference exception to a 500 whose detail appends the cause message.
* Wall-clock readings are inputs: `elapsed` is the measured duration
  `time.time() - start_time` (a rational, seconds) and `now` the formatted
  timestamp.
* Python `round(x, n)` is modelled on ℚ by `pyRound` (round-half-to-even,
  as Python rounds).
-/

/-- Generation keyword arguments passed to the pipeline call. -/
structure GenArgs where
  max_length : ℤ
  min_length : ℤ
  do_sample : Bool
deriving DecidableEq, Repr

/-- The black-box summarization pipeline: input text and generation
arguments to either a summary or an exception message. -/
def Pipeline : Type := String → GenArgs → Except String String

/-- Raw request body before pydantic validation: `text` and the optional
`max_length` field (absent means the default 100 applies). -/
structure RawRequest where
  text : String
  max_length : Option ℤ
deriving DecidableEq, Repr

/-- Validated `SummarizeRequest` (pydantic model): `text` with
`min_length = 50`, `max_length = 5000`; `max_length` field with default
100, `ge = 30`, `le = 300`. -/
structure SummarizeRequest where
  text : String
  max_length : ℤ
deriving DecidableEq, Repr

/-- `SummarizeResponse` model of the API. -/
structure SummarizeResponse where
  summary : String
  original_length : ℕ
  summary_length : ℕ
  compression_ratio : ℚ
  processing_time : ℚ
  model_used : String
  timestamp : String
deriving DecidableEq, Repr

/-- Errors raised by the summarize path: a pydantic/FastAPI validation
error (422) with a detail string, or an `HTTPException` with a status code
and detail. -/
inductive ApiError where
  | validation (detail : String)
  | http (status_code : ℕ) (detail : String)
deriving DecidableEq, Repr

/-- Response of the `/health` endpoint. -/
structure HealthResponse where
  status : String
  model_loaded : Bool
  timestamp : String
deriving DecidableEq, Repr

/-- Round-half-to-even on ℚ, the rounding Python `round` uses. -/
def roundHalfEven (q : ℚ) : ℤ :=
  if q - ⌊q⌋ < 1 / 2 then ⌊q⌋
  else if 1 / 2 < q - ⌊q⌋ then ⌊q⌋ + 1
  else if ⌊q⌋ % 2 = 0 then ⌊q⌋ else ⌊q⌋ + 1

/-- Python `round(q, n)` on ℚ: round `q * 10 ^ n` half-to-even, divide
back. -/
def pyRound (n : ℕ) (q : ℚ) : ℚ := (roundHalfEven (q * 10 ^ n) : ℚ) / 10 ^ n

/-- Initial value of the global `summarizer` variable (`None`). -/
def initialSummarizer : Option Pipeline := none

/-- `startup_event`: on load success the global becomes the pipeline; on
exception the code leaves `summarizer` as `None`. -/
def startup_event (load : Except String Pipeline) : Option Pipeline :=
  match load with
  | .ok p => some p
  | .error _ => none

/-- Pydantic validation of the request body. -/
def validate_request (raw : RawRequest) : Except String SummarizeRequest :=
  if raw.text.length < 50 then
    .error "text: ensure this value has at least 50 characters"
  else if 5000 < raw.text.length then
    .error "text: ensure this value has at most 5000 characters"
  else
    let m := raw.max_length.getD 100
    if m < 30 then
      .error "max_length: ensure this value is greater than or equal to 30"
    else if 300 < m then
      .error "max_length: ensure this value is less than or equal to 300"
    else
      .ok { text := raw.text, max_length := m }

/-- The generation keyword arguments the handler builds:
`max_length = min(100, request.max_length // 3)`, `min_length = 20`,
`do_sample = False`.  Python `//` is floor division, `Int.fdiv`. -/
def genArgs (max_length : ℤ) : GenArgs :=
  { max_length := min 100 (Int.fdiv max_length 3)
    min_length := 20
    do_sample := false }

/-- Detail text of the 503 raised when the model is not loaded. -/
def unavailableDetail : String := "Модель не загружена. Сервис временно недоступен."

/-- Detail text the 500 handler puts before the original cause message. -/
def processingErrHead : String := "Ошибка при обработке текста: "

/-- The `/summarize` handler body (after validation): check the global,
run the pipeline, compute metrics, assemble the response; any exception in
the `try` block becomes a 500 whose detail appends the cause message. -/
def summarize (summarizer : Option Pipeline) (request : SummarizeRequest)
    (elapsed : ℚ) (now : String) : Except ApiError SummarizeResponse :=
  match summarizer with
  | none => .error (ApiError.http 503 unavailableDetail)
  | some f =>
    match f request.text (genArgs request.max_length) with
    | .error e => .error (ApiError.http 500 (processingErrHead ++ e))
    | .ok summary =>
      let original_length := request.text.length
      let summary_length := summary.length
      let compression_ratio : ℚ :=
        (original_length : ℚ) / ((max summary_length 1 : ℕ) : ℚ)
      .ok { summary := summary
            original_length := original_length
            summary_length := summary_length
            compression_ratio := pyRound 2 compression_ratio
            processing_time := pyRound 3 elapsed
            model_used := "rut5_base_sum_gazeta"
            timestamp := now }

/-- The full `/summarize` request path: FastAPI validates the body first,
then runs the handler. -/
def handle_summarize (summarizer : Option Pipeline) (raw : RawRequest)
    (elapsed : ℚ) (now : String) : Except ApiError SummarizeResponse :=
  match validate_request raw with
  | .error d => .error (ApiError.validation d)
  | .ok req => summarize summarizer req elapsed now

/-- The `/health` handler. -/
def health_check (summarizer : Option Pipeline) (now : String) : HealthResponse :=
  { status := if summarizer.isSome then "healthy" else "unhealthy"
    model_loaded := summarizer.isSome
    timestamp := now }

/-- An incoming request event, with its wall-clock inputs. -/
inductive Request where
  | summarizeReq (raw : RawRequest) (elapsed : ℚ) (now : String)
  | healthReq (now : String)
  | rootReq
deriving Repr

/-- An outgoing response. -/
inductive Output where
  | summOut (r : Except ApiError SummarizeResponse)
  | healthOut (h : HealthResponse)
  | rootOut (message version docs openapi : String)
deriving Repr

/-- The `/` handler. -/
def root : Output :=
  Output.rootOut "Russian News Summarizer API" "1.0.0" "/docs" "/openapi.json"

/-- One request-handling step of the server: every handler reads the
global `summarizer` and none of them writes it. -/
def handle_request (summarizer : Option Pipeline) :
    Request → Option Pipeline × Output
  | .summarizeReq raw elapsed now =>
    (summarizer, .summOut (handle_summarize summarizer raw elapsed now))
  | .healthReq now => (summarizer, .healthOut (health_check summarizer now))
  | .rootReq => (summarizer, root)

/-- Thread the server state through a sequence of requests. -/
def run_requests (summarizer : Option Pipeline) : List Request → Option Pipeline
  | [] => summarizer
  | r :: rs => run_requests (handle_request summarizer r).1 rs

/-- A whole process run: startup once, then the request sequence; the
result is the final value of the global. -/
def runProc (load : Except String Pipeline) (reqs : List Request) :
    Option Pipeline :=
  run_requests (startup_event load) reqs

/-- Engine lifecycle state of the spec. -/
inductive EngineState where
  | loading
  | ready
  | failed
deriving DecidableEq, Repr

/-- Process phase: `none` = startup not yet run (Loading); `some load` =
startup ran with the given load outcome. -/
def ProcPhase : Type := Option (Except String Pipeline)

/-- The spec-level engine state of a process phase. -/
def stateOf : ProcPhase → EngineState
  | none => .loading
  | some (.error _) => .failed
  | some (.ok _) => .ready

/-- The value of the global `summarizer` in a process phase. -/
def summarizerOf : ProcPhase → Option Pipeline
  | none => none
  | some (.error _) => none
  | some (.ok p) => some p

/-- Helper: `roundHalfEven` at a point whose fractional part is below a
half. -/
lemma rhe_of_floor_lt (q : ℚ) (z : ℤ) (hf : ⌊q⌋ = z) (h : q - z < 1 / 2) :
    roundHalfEven q = z := by
  unfold roundHalfEven
  rw [hf, if_pos h]

/-- Helper: `roundHalfEven` at a point whose fractional part is above a
half. -/
lemma rhe_of_floor_gt (q : ℚ) (z : ℤ) (hf : ⌊q⌋ = z) (h : 1 / 2 < q - z) :
    roundHalfEven q = z + 1 := by
  unfold roundHalfEven
  rw [hf, if_neg (by linarith), if_pos h]

/-- `roundHalfEven` never rounds below the floor. -/
lemma floor_le_rhe (q : ℚ) : ⌊q⌋ ≤ roundHalfEven q := by
  unfold roundHalfEven
  split_ifs <;> omega

/-- A rational at least 1 still rounds to at least 1 at any precision. -/
lemma one_le_pyRound (n : ℕ) (q : ℚ) (h : 1 ≤ q) : 1 ≤ pyRound n q := by
  unfold pyRound
  have hpow : (0 : ℚ) < 10 ^ n := by positivity
  have h1 : ((10 ^ n : ℤ) : ℚ) ≤ q * 10 ^ n := by
    push_cast
    nlinarith
  have h2 : (10 ^ n : ℤ) ≤ ⌊q * 10 ^ n⌋ := Int.le_floor.mpr h1
  have h3 : (10 ^ n : ℤ) ≤ roundHalfEven (q * 10 ^ n) :=
    le_trans h2 (floor_le_rhe _)
  rw [le_div_iff₀ hpow]
  calc (1 : ℚ) * 10 ^ n = ((10 ^ n : ℤ) : ℚ) := by push_cast; ring
    _ ≤ (roundHalfEven (q * 10 ^ n) : ℚ) := by exact_mod_cast h3

/-- Evaluation: `round(0.5, 2) = 0.5`. -/
lemma pyRound2_half : pyRound 2 ((60 : ℚ) / 120) = 1 / 2 := by
  unfold pyRound
  rw [rhe_of_floor_lt ((60 / 120 : ℚ) * 10 ^ 2) 50 (by norm_num) (by norm_num)]
  norm_num

/-- Evaluation: `round(3.0, 2) = 3.0`. -/
lemma pyRound2_three : pyRound 2 (3 : ℚ) = 3 := by
  unfold pyRound
  rw [rhe_of_floor_lt ((3 : ℚ) * 10 ^ 2) 300 (by norm_num) (by norm_num)]
  norm_num

/-- Evaluation: `round(0.0, 3) = 0.0`. -/
lemma pyRound3_zero : pyRound 3 (0 : ℚ) = 0 := by
  unfold pyRound
  rw [rhe_of_floor_lt ((0 : ℚ) * 10 ^ 3) 0 (by norm_num) (by norm_num)]
  norm_num

/-- A 60-character input text (the spec scenario length). -/
def text60 : String := "012345678901234567890123456789012345678901234567890123456789"

/-- A fixed 20-character summary an engine may return. -/
def sum20 : String := "abcdefghijklmnopqrst"

/-- A fixed 120-character summary an engine may return (longer than the
60-character input). -/
def sum120 : String :=
  "aaaaaaaaaaaaaaaaaaaaaaaaaaaaaaaaaaaaaaaaaaaaaaaaaaaaaaaaaaaaaaaaaaaaaaaaaaaaaaaaaaaaaaaaaaaaaaaaaaaaaaaaaaaaaaaaaaaaaaaa"

/-- A deterministic engine that always produces the 20-character summary. -/
def okEngine : Pipeline := fun _ _ => .ok sum20

/-- A deterministic engine that always produces the 120-character summary. -/
def longEngine : Pipeline := fun _ _ => .ok sum120

/-- An engine whose inference call always raises. -/
def failEngine : Pipeline := fun _ _ => .error "boom"

/-- A raw request with the 60-character text and `max_length = 100`. -/
def rawGood : RawRequest := { text := text60, max_length := some 100 }

/-- The validated request for `rawGood`. -/
def reqGood : SummarizeRequest := { text := text60, max_length := 100 }

/-- The response `summarize` produces for `reqGood` against `okEngine`
with `elapsed = 0` and timestamp `"t"`. -/
def respOk : SummarizeResponse :=
  { summary := sum20
    original_length := 60
    summary_length := 20
    compression_ratio := 3
    processing_time := 0
    model_used := "rut5_base_sum_gazeta"
    timestamp := "t" }

/-- The response `summarize` produces for `reqGood` against `longEngine`
with `elapsed = 0` and timestamp `"t"`. -/
def respLong : SummarizeResponse :=
  { summary := sum120
    original_length := 60
    summary_length := 120
    compression_ratio := 1 / 2
    processing_time := 0
    model_used := "rut5_base_sum_gazeta"
    timestamp := "t" }

/-- Evaluation of the handler body on `okEngine`. -/
lemma summarize_okEngine :
    summarize (some okEngine) reqGood 0 "t" = Except.ok respOk := by
  simp only [summarize, okEngine, reqGood]
  rw [show text60.length = 60 from rfl, show sum20.length = 20 from rfl]
  rw [show (max 20 1 : ℕ) = 20 from rfl]
  rw [show ((60 : ℕ) : ℚ) / ((20 : ℕ) : ℚ) = 3 by norm_num]
  rw [pyRound2_three, pyRound3_zero]
  rfl

/-- Evaluation of the full request path on `okEngine`. -/
lemma handle_okEngine :
    handle_summarize (some okEngine) rawGood 0 "t" = Except.ok respOk := by
  have hv : validate_request rawGood = Except.ok reqGood := rfl
  rw [handle_summarize, hv]
  exact summarize_okEngine

/-- Evaluation of the handler body on `longEngine`. -/
lemma summarize_longEngine :
    summarize (some longEngine) reqGood 0 "t" = Except.ok respLong := by
  simp only [summarize, longEngine, reqGood]
  rw [show text60.length = 60 from rfl, show sum120.length = 120 from rfl]
  rw [show (max 120 1 : ℕ) = 120 from rfl]
  rw [show ((60 : ℕ) : ℚ) / ((120 : ℕ) : ℚ) = (60 : ℚ) / 120 by norm_num]
  rw [pyRound2_half, pyRound3_zero]
  rfl

/-- The summary text of a summarize result, when successful. -/
def summaryOf : Except ApiError SummarizeResponse → Option String
  | .ok r => some r.summary
  | .error _ => none

/-- Text is preserved by validation. -/
lemma validate_request_text (raw : RawRequest) (req : SummarizeRequest)
    (h : validate_request raw = Except.ok req) : req.text = raw.text := by
  simp only [validate_request] at h
  split_ifs at h
  cases h
  rfl

/-- An out-of-range raw request fails pydantic validation. -/
lemma validate_request_fails (raw : RawRequest)
    (h : raw.text.length < 50 ∨ 5000 < raw.text.length
        ∨ raw.max_length.getD 100 < 30 ∨ 300 < raw.max_length.getD 100) :
    ∃ d, validate_request raw = Except.error d := by
  simp only [validate_request]
  rcases h with h | h | h | h <;> split_ifs <;> first | exact ⟨_, rfl⟩ | omega

/-- Request handling never writes the `summarizer` global. -/
lemma handle_request_fst (s : Option Pipeline) (r : Request) :
    (handle_request s r).1 = s := by
  cases r <;> rfl

/-- Threading any request sequence through the server leaves the
`summarizer` global unchanged. -/
lemma run_requests_eq (reqs : List Request) (s : Option Pipeline) :
    run_requests s reqs = s := by
  induction reqs with
  | nil => rfl
  | cons r rs ih => rw [run_requests, handle_request_fst, ih]

/-- C1: for every request with `maxLength` in [30, 300], the handler
invokes the pipeline with generation ceiling `min(100, maxLength // 3)`
(hence never above the hard cap 100), minimum generation length exactly
20, and sampling disabled; the handler's output depends on the engine only
through its value at exactly these arguments. -/
theorem c1_generation_arguments (m : ℤ) (f g : Pipeline) (text : String)
    (e : ℚ) (now : String) (h1 : 30 ≤ m) (h2 : m ≤ 300)
    (hfg : f text (genArgs m) = g text (genArgs m)) :
    genArgs m = { max_length := min 100 (Int.fdiv m 3)
                  min_length := 20
                  do_sample := false } ∧
    (genArgs m).max_length ≤ 100 ∧
    (genArgs m).min_length = 20 ∧
    (genArgs m).do_sample = false ∧
    summarize (some f) { text := text, max_length := m } e now
      = summarize (some g) { text := text, max_length := m } e now := by
  refine ⟨rfl, ?_, rfl, rfl, ?_⟩
  · exact min_le_left _ _
  · simp only [summarize]
    rw [hfg]

/-- Witness for C1 at `maxLength = 100` and the 60-character text. -/
theorem c1_generation_arguments_witness :
    (30 ≤ (100 : ℤ)) ∧ ((100 : ℤ) ≤ 300) ∧
    (genArgs 100 = { max_length := min 100 (Int.fdiv 100 3)
                     min_length := 20
                     do_sample := false } ∧
     (genArgs 100).max_length ≤ 100 ∧
     (genArgs 100).min_length = 20 ∧
     (genArgs 100).do_sample = false ∧
     summarize (some okEngine) { text := text60, max_length := 100 } 0 "t"
       = summarize (some okEngine) { text := text60, max_length := 100 } 0 "t") :=
  ⟨by norm_num, by norm_num,
    c1_generation_arguments 100 okEngine okEngine text60 0 "t"
      (by norm_num) (by norm_num) rfl⟩

/-- C2: every successful response carries `originalLength` equal to the
input text's character length, `summaryLength` equal to the summary's
character length, `compressionRatio = round(originalLength /
max(summaryLength, 1), 2)` and `processingTimeSeconds =
round(elapsedSeconds, 3)`. -/
theorem c2_response_metrics (f : Pipeline) (raw : RawRequest) (e : ℚ)
    (now : String) (resp : SummarizeResponse)
    (h : handle_summarize (some f) raw e now = Except.ok resp) :
    resp.original_length = raw.text.length ∧
    resp.summary_length = resp.summary.length ∧
    resp.compression_ratio
      = pyRound 2 ((resp.original_length : ℚ)
          / ((max resp.summary_length 1 : ℕ) : ℚ)) ∧
    resp.processing_time = pyRound 3 e := by
  rcases hv : validate_request raw with d | req
  · simp only [handle_summarize, hv] at h
    exact absurd h (by simp)
  · simp only [handle_summarize, hv, summarize] at h
    rcases hf : f req.text (genArgs req.max_length) with msg | s
    · simp only [hf] at h
      exact absurd h (by simp)
    · simp only [hf] at h
      cases h
      refine ⟨?_, rfl, rfl, rfl⟩
      exact congrArg String.length (validate_request_text raw req hv)

/-- Witness for C2: the 60-character text against `okEngine`. -/
theorem c2_response_metrics_witness :
    (handle_summarize (some okEngine) rawGood 0 "t" = Except.ok respOk) ∧
    (respOk.original_length = rawGood.text.length ∧
     respOk.summary_length = respOk.summary.length ∧
     respOk.compression_ratio
       = pyRound 2 ((respOk.original_length : ℚ)
           / ((max respOk.summary_length 1 : ℕ) : ℚ)) ∧
     respOk.processing_time = pyRound 3 0) :=
  ⟨handle_okEngine,
    c2_response_metrics okEngine rawGood 0 "t" respOk handle_okEngine⟩

/-- C3: in every process phase whose engine state is not `Ready`
(`Loading` or `Failed`, where the global is still `None`), the summarize
handler answers 503 with the unavailability detail, and the health check
reports `"unhealthy"` with `model_loaded = false`. -/
theorem c3_not_ready_unavailable (ph : ProcPhase) (req : SummarizeRequest)
    (e : ℚ) (now : String) (h : stateOf ph ≠ EngineState.ready) :
    summarize (summarizerOf ph) req e now
      = Except.error (ApiError.http 503 unavailableDetail) ∧
    health_check (summarizerOf ph) now
      = { status := "unhealthy", model_loaded := false, timestamp := now } := by
  have hs : summarizerOf ph = none := by
    rcases ph with _ | load
    · rfl
    · rcases load with msg | p
      · rfl
      · exact absurd rfl h
  rw [hs]
  exact ⟨rfl, rfl⟩

/-- Witness for C3 in the `Failed` phase. -/
theorem c3_not_ready_unavailable_witness :
    (stateOf (some (Except.error "load failed")) ≠ EngineState.ready) ∧
    (summarize (summarizerOf (some (Except.error "load failed"))) reqGood 0 "t"
       = Except.error (ApiError.http 503 unavailableDetail) ∧
     health_check (summarizerOf (some (Except.error "load failed"))) "t"
       = { status := "unhealthy", model_loaded := false, timestamp := "t" }) :=
  ⟨by decide,
    c3_not_ready_unavailable (some (Except.error "load failed")) reqGood 0 "t"
      (by decide)⟩

/-- C4: a request out of the documented ranges fails validation — the
result is a `ValidationError`, identical for every engine state (in
particular it is not the 503 of a not-ready engine), so no engine work
occurs. -/
theorem c4_validation_first (st : Option Pipeline) (raw : RawRequest)
    (e : ℚ) (now : String)
    (h : raw.text.length < 50 ∨ 5000 < raw.text.length
        ∨ raw.max_length.getD 100 < 30 ∨ 300 < raw.max_length.getD 100) :
    (∃ d, handle_summarize st raw e now = Except.error (ApiError.validation d)) ∧
    handle_summarize st raw e now = handle_summarize none raw e now := by
  obtain ⟨d, hd⟩ := validate_request_fails raw h
  unfold handle_summarize
  rw [hd]
  exact ⟨⟨d, rfl⟩, rfl⟩

/-- Witness for C4: a 10-character text with a loaded engine. -/
theorem c4_validation_first_witness :
    (("0123456789" : String).length < 50) ∧
    ((∃ d, handle_summarize (some okEngine)
        { text := "0123456789", max_length := some 100 } 0 "t"
        = Except.error (ApiError.validation d)) ∧
     handle_summarize (some okEngine)
         { text := "0123456789", max_length := some 100 } 0 "t"
       = handle_summarize none
           { text := "0123456789", max_length := some 100 } 0 "t") :=
  ⟨by decide,
    c4_validation_first (some okEngine)
      { text := "0123456789", max_length := some 100 } 0 "t"
      (Or.inl (by decide))⟩

/-- C5: for a request reaching the engine while it is loaded, a raising
inference call is mapped to a 500 whose detail is the fixed text followed
by the original cause message, and the handler leaves the engine handle
unchanged, so any subsequent request still sees the loaded engine. -/
theorem c5_inference_error_isolated (f : Pipeline) (req : SummarizeRequest)
    (e : ℚ) (now msg : String) (raw2 : RawRequest) (e2 : ℚ) (n2 : String)
    (hf : f req.text (genArgs req.max_length) = Except.error msg) :
    summarize (some f) req e now
      = Except.error (ApiError.http 500 (processingErrHead ++ msg)) ∧
    (handle_request (some f) (Request.summarizeReq raw2 e2 n2)).1 = some f ∧
    health_check ((handle_request (some f) (Request.summarizeReq raw2 e2 n2)).1) n2
      = { status := "healthy", model_loaded := true, timestamp := n2 } := by
  refine ⟨?_, rfl, rfl⟩
  simp only [summarize, hf]

/-- Witness for C5: `failEngine` raising `"boom"` on the valid request. -/
theorem c5_inference_error_isolated_witness :
    (failEngine reqGood.text (genArgs reqGood.max_length)
       = Except.error "boom") ∧
    (summarize (some failEngine) reqGood 0 "t"
       = Except.error (ApiError.http 500 (processingErrHead ++ "boom")) ∧
     (handle_request (some failEngine) (Request.summarizeReq rawGood 0 "t")).1
       = some failEngine ∧
     health_check
         ((handle_request (some failEngine) (Request.summarizeReq rawGood 0 "t")).1) "t"
       = { status := "healthy", model_loaded := true, timestamp := "t" }) :=
  ⟨rfl, c5_inference_error_isolated failEngine reqGood 0 "t" "boom" rawGood 0 "t" rfl⟩

/-- C6: the engine handle is written only by the startup transition
(`Loading → Ready` on load success, `Loading → Failed` on load failure);
no request handler writes it, so after startup it stays fixed through any
request sequence — `Ready` and `Failed` are terminal. -/
theorem c6_state_written_once (s : Option Pipeline) (r : Request)
    (load : Except String Pipeline) (reqs : List Request) (p : Pipeline)
    (msg : String) :
    (handle_request s r).1 = s ∧
    runProc load reqs = startup_event load ∧
    stateOf none = EngineState.loading ∧
    stateOf (some (Except.ok p)) = EngineState.ready ∧
    stateOf (some (Except.error msg)) = EngineState.failed ∧
    startup_event (Except.ok p) = some p ∧
    startup_event (Except.error msg) = none :=
  ⟨handle_request_fst s r, run_requests_eq reqs _, rfl, rfl, rfl, rfl, rfl⟩

/-- C7: with the engine fixed, the summary text of a summarize call is a
deterministic function of the input text and `maxLength` alone (the
wall-clock inputs do not influence it), and the generation arguments
disable sampling. -/
theorem c7_deterministic_summary (st : Option Pipeline) (text : String)
    (m : ℤ) (e1 e2 : ℚ) (n1 n2 : String) :
    summaryOf (summarize st { text := text, max_length := m } e1 n1)
      = summaryOf (summarize st { text := text, max_length := m } e2 n2) ∧
    (genArgs m).do_sample = false := by
  refine ⟨?_, rfl⟩
  cases st with
  | none => rfl
  | some f =>
    simp only [summarize]
    cases f text (genArgs m) <;> rfl

/-- C9: for every valid `maxLength` between 30 and 59 the generation
ceiling `min(100, maxLength // 3)` handed to the model is strictly below
the fixed minimum generation length of 20. -/
theorem c9_ceiling_below_minimum (m : ℤ) (h1 : 30 ≤ m) (h2 : m ≤ 59) :
    (genArgs m).max_length < (genArgs m).min_length := by
  simp only [genArgs]
  rw [Int.fdiv_eq_ediv m (by norm_num)]
  have hdiv : m / 3 < 20 := by omega
  rw [min_eq_right (by omega : m / 3 ≤ 100)]
  exact hdiv

/-- Witness for C9 at `maxLength = 45`. -/
theorem c9_ceiling_below_minimum_witness :
    ((30 : ℤ) ≤ 45) ∧ ((45 : ℤ) ≤ 59) ∧
    (genArgs 45).max_length < (genArgs 45).min_length :=
  ⟨by norm_num, by norm_num,
    c9_ceiling_below_minimum 45 (by norm_num) (by norm_num)⟩

/-- C10: a failed load leaves the engine handle equal to its initial,
never-loaded value, so the `Failed` and `Loading` phases expose the very
same health-check and summarize behaviour. -/
theorem c10_failed_equals_loading (msg : String) (raw : RawRequest) (e : ℚ)
    (now n2 : String) :
    startup_event (Except.error msg) = initialSummarizer ∧
    summarizerOf (some (Except.error msg)) = summarizerOf none ∧
    health_check (summarizerOf (some (Except.error msg))) now
      = health_check (summarizerOf none) now ∧
    handle_summarize (summarizerOf (some (Except.error msg))) raw e n2
      = handle_summarize (summarizerOf none) raw e n2 :=
  ⟨rfl, rfl, rfl, rfl⟩

/-- C8 as frozen is false: a 60-character input processed by a loaded
engine that successfully returns a 120-character summary yields a
successful response whose `compression_ratio` is `0.5 < 1`. -/
theorem c8_counterexample :
    ¬ (∀ (f : Pipeline) (text : String) (e : ℚ) (now : String)
        (resp : SummarizeResponse),
        text.length = 60 →
        summarize (some f) { text := text, max_length := 100 } e now
          = Except.ok resp →
        resp.original_length = 60 ∧ 1 ≤ resp.summary_length ∧
          1 ≤ resp.compression_ratio) := by
  intro h
  have hx := h longEngine text60 0 "t" respLong rfl summarize_longEngine
  have h1 : (1 : ℚ) ≤ 1 / 2 := hx.2.2
  norm_num at h1

/-- C8 (amended): for a 60-character input with `maxLength = 100` and a
successful inference, every successful response has `originalLength = 60`;
when moreover the engine's summary is non-empty and no longer than the
input, `summaryLength ≥ 1` and `compressionRatio ≥ 1.0`. -/
theorem c8_sixty_char_scenario (f : Pipeline) (text : String) (e : ℚ)
    (now : String) (resp : SummarizeResponse)
    (hlen : text.length = 60)
    (h : summarize (some f) { text := text, max_length := 100 } e now
        = Except.ok resp) :
    resp.original_length = 60 ∧
    (1 ≤ resp.summary_length → resp.summary_length ≤ 60 →
      1 ≤ resp.summary_length ∧ 1 ≤ resp.compression_ratio) := by
  simp only [summarize] at h
  rcases hf : f text (genArgs 100) with msg | s
  · simp only [hf] at h
    exact absurd h (by simp)
  · simp only [hf] at h
    cases h
    refine ⟨hlen, fun hs1 hs2 => ⟨hs1, ?_⟩⟩
    simp only at hs1 hs2 ⊢
    rw [hlen]
    rw [Nat.max_eq_left hs1]
    apply one_le_pyRound
    have hpos : (0 : ℚ) < (s.length : ℚ) := by exact_mod_cast hs1
    rw [one_le_div hpos]
    exact_mod_cast hs2

/-- Witness for C8 (amended): the 60-character text against `okEngine`,
whose 20-character summary also satisfies the conditional part. -/
theorem c8_sixty_char_scenario_witness :
    (text60.length = 60) ∧
    (summarize (some okEngine) { text := text60, max_length := 100 } 0 "t"
       = Except.ok respOk) ∧
    (respOk.original_length = 60 ∧
     (1 ≤ respOk.summary_length → respOk.summary_length ≤ 60 →
       1 ≤ respOk.summary_length ∧ 1 ≤ respOk.compression_ratio)) ∧
    (1 ≤ respOk.summary_length ∧ 1 ≤ respOk.compression_ratio) :=
  ⟨rfl, summarize_okEngine,
    c8_sixty_char_scenario okEngine text60 0 "t" respOk rfl summarize_okEngine,
    (c8_sixty_char_scenario okEngine text60 0 "t" respOk rfl
        summarize_okEngine).2 (by decide) (by decide)⟩
